import Mathlib

/-!
Verification of the SeuBank ledger routes (src/backend/server.py) against its
natural-language specification.

The route handlers are embedded shallowly: the MongoDB collections `users`,
`accounts`, `transactions` become lists of records in a `BankState`;
`find_one` becomes `List.find?` over the collection with the same filter;
`update_one` updates the first matching document; `insert_one` appends;
`delete_many` filters; `delete_one` removes the first match.  Monetary
amounts (Python `float` in the source) are modelled as exact rationals `ℚ`;
the representation gap is discussed where relevant.  Nondeterministic inputs
of the source (uuid4 ids, utcnow timestamps) are passed as explicit
parameters.  A handler that raises `HTTPException` is modelled as returning
`Except.error` with the corresponding `ApiError`; since an error result
carries no successor state, an erroring handler leaves the database
unchanged, exactly as in the source where the exception is raised before any
write.
-/

namespace SeuBank

/-- `TransactionType` enum of the source (server.py lines 41-44). -/
inductive TransactionType where
  | deposit
  | withdrawal
  | transfer
deriving DecidableEq

/-- `AccountType` enum of the source (server.py lines 46-48). -/
inductive AccountType where
  | checking
  | savings
deriving DecidableEq

/-- `UserRole` enum of the source (server.py lines 50-52). -/
inductive UserRole where
  | user
  | admin
deriving DecidableEq

/-- `User` model (server.py lines 55-62); `created_at` is an abstract tick. -/
structure User where
  id : String
  email : String
  full_name : String
  phone : String
  role : UserRole
  created_at : ℕ
  is_active : Bool
deriving DecidableEq

/-- `Account` model (server.py lines 88-95).  `balance` is `float` in the
source; it is modelled as an exact rational. -/
structure Account where
  id : String
  user_id : String
  account_number : String
  account_type : AccountType
  balance : ℚ
  created_at : ℕ
  is_active : Bool
deriving DecidableEq

/-- `Transaction` model (server.py lines 100-108). -/
structure Transaction where
  id : String
  from_account_id : Option String
  to_account_id : Option String
  amount : ℚ
  transaction_type : TransactionType
  description : String
  timestamp : ℕ
  user_id : String
deriving DecidableEq

/-- `TransactionCreate` request body (server.py lines 110-114). -/
structure TransactionCreate where
  to_account_id : Option String
  amount : ℚ
  transaction_type : TransactionType
  description : String
deriving DecidableEq

/-- `TransferRequest` request body (server.py lines 116-120). -/
structure TransferRequest where
  from_account_id : String
  to_account_id : String
  amount : ℚ
  description : String
deriving DecidableEq

/-- `UserUpdate` request body (server.py lines 71-75). -/
structure UserUpdate where
  full_name : Option String
  phone : Option String
  is_active : Option Bool
  role : Option UserRole
deriving DecidableEq

/-- The three MongoDB collections used by the handlers. -/
structure BankState where
  users : List User
  accounts : List Account
  transactions : List Transaction
deriving DecidableEq

/-- The `HTTPException`s raised by the modelled handlers, by `detail`. -/
inductive ApiError where
  | invalidTransactionType
  | accountNotFound
  | fromAccountNotFound
  | toAccountNotFound
  | insufficientBalance
  | emailAlreadyRegistered
  | userNotFound
  | cannotDeleteAdmin
deriving DecidableEq

/-- Mongo `db.accounts.find_one(\x7b"id": oid, "user_id": uid\x7d)`: first
account whose id equals the given (possibly null) value and whose owner is
`uid`.  The id filter value is an `Option String` because
`TransactionCreate.to_account_id` is `Optional[str]` in the source; a null
filter value matches no account (every stored id is a string). -/
def find_one_owned (accounts : List Account) (oid : Option String)
    (uid : String) : Option Account :=
  accounts.find? (fun a => some a.id == oid && a.user_id == uid)

/-- Mongo `db.accounts.find_one(\x7b"id": oid\x7d)` with no owner filter
(used for a transfer's destination account, server.py line 336). -/
def find_one_by_id (accounts : List Account) (oid : Option String) :
    Option Account :=
  accounts.find? (fun a => some a.id == oid)

/-- Mongo `db.accounts.update_one(\x7b"id": oid\x7d, \x7b"$set":
\x7b"balance": v\x7d\x7d)`: set the balance of the first account whose id
matches, leaving all other accounts untouched. -/
def update_balance : List Account → Option String → ℚ → List Account
  | [], _, _ => []
  | a :: rest, oid, v =>
      if some a.id == oid then { a with balance := v } :: rest
      else a :: update_balance rest oid v

/-- `POST /api/transactions/deposit` (server.py lines 266-293).
`txnId` and `now` stand for the uuid4 and utcnow drawn inside the handler. -/
def deposit_money (s : BankState) (callerId : String) (td : TransactionCreate)
    (txnId : String) (now : ℕ) : Except ApiError (BankState × ℚ) :=
  if td.transaction_type ≠ TransactionType.deposit then
    Except.error ApiError.invalidTransactionType
  else
    match find_one_owned s.accounts td.to_account_id callerId with
    | none => Except.error ApiError.accountNotFound
    | some account =>
        let new_balance := account.balance + td.amount
        let t : Transaction :=
          { id := txnId
            from_account_id := none
            to_account_id := td.to_account_id
            amount := td.amount
            transaction_type := TransactionType.deposit
            description := td.description
            timestamp := now
            user_id := callerId }
        Except.ok
          ({ s with
              accounts := update_balance s.accounts td.to_account_id new_balance
              transactions := s.transactions ++ [t] },
           new_balance)

/-- `POST /api/transactions/withdrawal` (server.py lines 295-326).  Note the
source looks up and debits the account named by the request field
`to_account_id` and records it as the transaction's `from_account_id`. -/
def withdraw_money (s : BankState) (callerId : String) (td : TransactionCreate)
    (txnId : String) (now : ℕ) : Except ApiError (BankState × ℚ) :=
  if td.transaction_type ≠ TransactionType.withdrawal then
    Except.error ApiError.invalidTransactionType
  else
    match find_one_owned s.accounts td.to_account_id callerId with
    | none => Except.error ApiError.accountNotFound
    | some account =>
        if account.balance < td.amount then
          Except.error ApiError.insufficientBalance
        else
          let new_balance := account.balance - td.amount
          let t : Transaction :=
            { id := txnId
              from_account_id := td.to_account_id
              to_account_id := none
              amount := td.amount
              transaction_type := TransactionType.withdrawal
              description := td.description
              timestamp := now
              user_id := callerId }
          Except.ok
            ({ s with
                accounts := update_balance s.accounts td.to_account_id new_balance
                transactions := s.transactions ++ [t] },
             new_balance)

/-- `POST /api/transactions/transfer` (server.py lines 328-368).  Both
balances are computed from the pre-update reads, then written by two
successive `update_one` calls; the returned rational is the handler's
`new_from_balance` payload. -/
def transfer_money (s : BankState) (callerId : String) (tr : TransferRequest)
    (txnId : String) (now : ℕ) : Except ApiError (BankState × ℚ) :=
  match find_one_owned s.accounts (some tr.from_account_id) callerId with
  | none => Except.error ApiError.fromAccountNotFound
  | some from_account =>
      match find_one_by_id s.accounts (some tr.to_account_id) with
      | none => Except.error ApiError.toAccountNotFound
      | some to_account =>
          if from_account.balance < tr.amount then
            Except.error ApiError.insufficientBalance
          else
            let new_from_balance := from_account.balance - tr.amount
            let new_to_balance := to_account.balance + tr.amount
            let accounts1 :=
              update_balance s.accounts (some tr.from_account_id) new_from_balance
            let accounts2 :=
              update_balance accounts1 (some tr.to_account_id) new_to_balance
            let t : Transaction :=
              { id := txnId
                from_account_id := some tr.from_account_id
                to_account_id := some tr.to_account_id
                amount := tr.amount
                transaction_type := TransactionType.transfer
                description := tr.description
                timestamp := now
                user_id := callerId }
            Except.ok
              ({ s with
                  accounts := accounts2
                  transactions := s.transactions ++ [t] },
               new_from_balance)

/-- Mongo `db.users.delete_one(\x7b"id": uid\x7d)`: remove the first match. -/
def erase_first_user : List User → String → List User
  | [], _ => []
  | u :: rest, uid => if u.id == uid then rest else u :: erase_first_user rest uid

/-- `DELETE /api/admin/users/\x7buser_id\x7d` (server.py lines 466-483):
refuses missing users and admins, then deletes the user's accounts, the
user's transactions (`delete_many`), and the user record itself. -/
def delete_user (s : BankState) (user_id : String) :
    Except ApiError BankState :=
  match s.users.find? (fun u => u.id == user_id) with
  | none => Except.error ApiError.userNotFound
  | some u =>
      if u.role == UserRole.admin then
        Except.error ApiError.cannotDeleteAdmin
      else
        Except.ok
          { users := erase_first_user s.users user_id
            accounts := s.accounts.filter (fun a => a.user_id != user_id)
            transactions := s.transactions.filter (fun t => t.user_id != user_id) }

/-- `POST /api/accounts` (server.py lines 247-251): insert a fresh account
with zero balance for the caller. -/
def create_account (s : BankState) (callerId : String) (t : AccountType)
    (accId accNum : String) (now : ℕ) : BankState :=
  { s with
      accounts := s.accounts ++
        [{ id := accId
           user_id := callerId
           account_number := accNum
           account_type := t
           balance := 0
           created_at := now
           is_active := true }] }

/-- `POST /api/auth/register` and `POST /api/admin/users` (server.py lines
199-226 and 485-506): both reject a duplicate email, insert the user, and
insert a default checking account when the new role is `user`. -/
def register_user (s : BankState) (email full_name phone : String)
    (role : UserRole) (newUserId accId accNum : String) (now : ℕ) :
    Except ApiError BankState :=
  if (s.users.find? (fun u => u.email == email)).isSome then
    Except.error ApiError.emailAlreadyRegistered
  else
    let u : User :=
      { id := newUserId, email := email, full_name := full_name
        phone := phone, role := role, created_at := now, is_active := true }
    let s1 := { s with users := s.users ++ [u] }
    if role == UserRole.user then
      Except.ok (create_account s1 newUserId AccountType.checking accId accNum now)
    else
      Except.ok s1

/-- Application of a `UserUpdate` body: Mongo `$set` of the non-null fields
(server.py line 458). -/
def applyUserUpdate (u : User) (upd : UserUpdate) : User :=
  { u with
      full_name := upd.full_name.getD u.full_name
      phone := upd.phone.getD u.phone
      is_active := upd.is_active.getD u.is_active
      role := upd.role.getD u.role }

/-- Mongo `db.users.update_one` for the first matching user. -/
def update_first_user : List User → String → UserUpdate → List User
  | [], _, _ => []
  | u :: rest, uid, upd =>
      if u.id == uid then applyUserUpdate u upd :: rest
      else u :: update_first_user rest uid upd

/-- `PUT /api/admin/users/\x7buser_id\x7d` (server.py lines 451-464). -/
def update_user (s : BankState) (user_id : String) (upd : UserUpdate) :
    Except ApiError BankState :=
  match s.users.find? (fun u => u.id == user_id) with
  | none => Except.error ApiError.userNotFound
  | some _ => Except.ok { s with users := update_first_user s.users user_id upd }

/-- The state-mutating endpoints of the server, as one operation type.  The
remaining endpoints (`login`, all `GET` routes) read the database without
writing it. -/
inductive Op where
  | registerOp (email full_name phone : String) (role : UserRole)
      (newUserId accId accNum : String) (now : ℕ)
  | createAccountOp (callerId : String) (t : AccountType)
      (accId accNum : String) (now : ℕ)
  | depositOp (callerId : String) (td : TransactionCreate)
      (txnId : String) (now : ℕ)
  | withdrawOp (callerId : String) (td : TransactionCreate)
      (txnId : String) (now : ℕ)
  | transferOp (callerId : String) (tr : TransferRequest)
      (txnId : String) (now : ℕ)
  | updateUserOp (user_id : String) (upd : UserUpdate)
  | deleteUserOp (user_id : String)

/-- One step of the system: run the chosen endpoint against the state. -/
def step (s : BankState) : Op → Except ApiError BankState
  | Op.registerOp e f p r nu ai an now => register_user s e f p r nu ai an now
  | Op.createAccountOp c t ai an now => Except.ok (create_account s c t ai an now)
  | Op.depositOp c td ti now => (deposit_money s c td ti now).map Prod.fst
  | Op.withdrawOp c td ti now => (withdraw_money s c td ti now).map Prod.fst
  | Op.transferOp c tr ti now => (transfer_money s c tr ti now).map Prod.fst
  | Op.updateUserOp uid upd => update_user s uid upd
  | Op.deleteUserOp uid => delete_user s uid

/-- Balance of the first account with the given id, if any. -/
def getBalance? (s : BankState) (aid : String) : Option ℚ :=
  (find_one_by_id s.accounts (some aid)).map Account.balance

/-- The spec invariant "for all accounts, balance >= 0". -/
def allBalancesNonneg (s : BankState) : Prop :=
  ∀ a ∈ s.accounts, 0 ≤ a.balance

/-! Concrete fixtures used by witnesses and counterexamples: one regular
user `u1` owning an active checking account `a1` (balance 1000, the spec's
withdrawal scenario) and an inactive account `a3` (balance 2); a second
principal `u2` owning the active account `a2` (balance 0). -/

/-- Active account of `u1` with balance 1000. -/
def A1 : Account :=
  { id := "a1", user_id := "u1", account_number := "N1"
    account_type := AccountType.checking, balance := 1000
    created_at := 0, is_active := true }

/-- Active account of `u2` with balance 0. -/
def A2 : Account :=
  { id := "a2", user_id := "u2", account_number := "N2"
    account_type := AccountType.savings, balance := 0
    created_at := 0, is_active := true }

/-- Inactive account of `u1` with balance 2. -/
def A3 : Account :=
  { id := "a3", user_id := "u1", account_number := "N3"
    account_type := AccountType.checking, balance := 2
    created_at := 0, is_active := false }

/-- Regular (non-admin) user `u1`. -/
def U1 : User :=
  { id := "u1", email := "maria@example.com", full_name := "Maria"
    phone := "+55", role := UserRole.user, created_at := 0, is_active := true }

/-- Base fixture state with an empty ledger. -/
def s0 : BankState := { users := [U1], accounts := [A1, A2, A3], transactions := [] }

/-- A committed deposit record of user `u1`. -/
def T0 : Transaction :=
  { id := "t0", from_account_id := none, to_account_id := some "a1"
    amount := 10, transaction_type := TransactionType.deposit
    description := "init", timestamp := 0, user_id := "u1" }

/-- Fixture state whose ledger already holds `T0`. -/
def sT : BankState := { users := [U1], accounts := [A1, A2, A3], transactions := [T0] }

/-- A deposit request with a negative amount. -/
def tdNeg : TransactionCreate :=
  { to_account_id := some "a1", amount := -3
    transaction_type := TransactionType.deposit, description := "neg" }

/-- A deposit request with amount zero. -/
def tdZero : TransactionCreate :=
  { to_account_id := some "a1", amount := 0
    transaction_type := TransactionType.deposit, description := "zero" }

/-- The spec scenario's oversized withdrawal request (amount 50000). -/
def tdBig : TransactionCreate :=
  { to_account_id := some "a1", amount := 50000
    transaction_type := TransactionType.withdrawal, description := "big" }

/-- A deposit request aimed at the inactive account `a3`. -/
def tdIn : TransactionCreate :=
  { to_account_id := some "a3", amount := 5
    transaction_type := TransactionType.deposit, description := "inactive" }

/-- The spec scenario's withdrawal request (amount 300). -/
def tdW : TransactionCreate :=
  { to_account_id := some "a1", amount := 300
    transaction_type := TransactionType.withdrawal, description := "saque" }

/-- A second withdrawal request (amount 250). -/
def tdW2 : TransactionCreate :=
  { to_account_id := some "a1", amount := 250
    transaction_type := TransactionType.withdrawal, description := "saque2" }

/-- A transfer request from `u1`'s account to `u2`'s account. -/
def trX : TransferRequest :=
  { from_account_id := "a1", to_account_id := "a2"
    amount := 250, description := "p2p" }

/-- The ledger record appended by running `tdZero` against `sT`. -/
def T1 : Transaction :=
  { id := "t1", from_account_id := none, to_account_id := some "a1"
    amount := 0, transaction_type := TransactionType.deposit
    description := "zero", timestamp := 1, user_id := "u1" }

/-- The state reached from `sT` by the `tdZero` deposit. -/
def sTdep : BankState :=
  { users := [U1], accounts := [A1, A2, A3], transactions := [T0, T1] }

/-! Lemmas about the Mongo-primitive models. -/

/-- Head computation for the id lookup when the head matches. -/
theorem find_one_by_id_cons_pos {b : Account} {rest : List Account}
    {oid : Option String} (h : (some b.id == oid) = true) :
    find_one_by_id (b :: rest) oid = some b := by
  unfold find_one_by_id
  exact List.find?_cons_of_pos _ (by simpa using h)

/-- Head computation for the id lookup when the head does not match. -/
theorem find_one_by_id_cons_neg {b : Account} {rest : List Account}
    {oid : Option String} (h : ¬ (some b.id == oid) = true) :
    find_one_by_id (b :: rest) oid = find_one_by_id rest oid := by
  unfold find_one_by_id
  exact List.find?_cons_of_neg _ (by simpa using h)

/-- An owned lookup returns a member account with the requested id and owner. -/
theorem find_one_owned_spec {l : List Account} {oid : Option String}
    {uid : String} {a : Account} (h : find_one_owned l oid uid = some a) :
    a ∈ l ∧ some a.id = oid ∧ a.user_id = uid := by
  unfold find_one_owned at h
  have hm := List.mem_of_find?_eq_some h
  have hp := List.find?_some h
  simp only [Bool.and_eq_true, beq_iff_eq] at hp
  exact ⟨hm, hp.1, hp.2⟩

/-- An id lookup returns a member account with the requested id. -/
theorem find_one_by_id_spec {l : List Account} {oid : Option String}
    {a : Account} (h : find_one_by_id l oid = some a) :
    a ∈ l ∧ some a.id = oid := by
  unfold find_one_by_id at h
  have hm := List.mem_of_find?_eq_some h
  have hp := List.find?_some h
  simp only [beq_iff_eq] at hp
  exact ⟨hm, hp⟩

/-- With duplicate-free account ids, the id lookup of a member account
returns exactly that account. -/
theorem find_one_by_id_of_mem {l : List Account} {a : Account}
    (hn : (l.map Account.id).Nodup) (ha : a ∈ l) :
    find_one_by_id l (some a.id) = some a := by
  induction l with
  | nil => simp at ha
  | cons b rest ih =>
      simp only [List.map_cons, List.nodup_cons] at hn
      rcases List.mem_cons.mp ha with h | h
      · subst h
        exact find_one_by_id_cons_pos (by simp)
      · have hne : b.id ≠ a.id := by
          intro he
          exact hn.1 (he ▸ List.mem_map_of_mem Account.id h)
        rw [find_one_by_id_cons_neg (by simp [hne])]
        exact ih hn.2 h

/-- Under duplicate-free ids, the owned lookup and the bare id lookup agree. -/
theorem find_one_by_id_of_owned {l : List Account} {oid : Option String}
    {uid : String} {a : Account} (hn : (l.map Account.id).Nodup)
    (h : find_one_owned l oid uid = some a) :
    find_one_by_id l oid = some a := by
  obtain ⟨hm, hid, -⟩ := find_one_owned_spec h
  exact hid ▸ find_one_by_id_of_mem hn hm

/-- Every account of the updated list either carries the written value or
the balance of some account of the original list. -/
theorem mem_update_balance {l : List Account} {oid : Option String} {v : ℚ}
    {b : Account} (hb : b ∈ update_balance l oid v) :
    b.balance = v ∨ ∃ a ∈ l, b.balance = a.balance := by
  induction l with
  | nil => simp [update_balance] at hb
  | cons a rest ih =>
      by_cases h : (some a.id == oid) = true
      · rw [update_balance, if_pos h] at hb
        rcases List.mem_cons.mp hb with h1 | h1
        · exact Or.inl (by simp [h1])
        · exact Or.inr ⟨b, List.mem_cons_of_mem _ h1, rfl⟩
      · rw [update_balance, if_neg h] at hb
        rcases List.mem_cons.mp hb with h1 | h1
        · exact Or.inr ⟨a, List.mem_cons_self a rest, by simp [h1]⟩
        · rcases ih h1 with h2 | ⟨a', ha', he⟩
          · exact Or.inl h2
          · exact Or.inr ⟨a', List.mem_cons_of_mem _ ha', he⟩

/-- Updating the account an id lookup finds makes the lookup return the
updated record. -/
theorem find_update_balance_self {l : List Account} {oid : Option String}
    {v : ℚ} {a : Account} (h : find_one_by_id l oid = some a) :
    find_one_by_id (update_balance l oid v) oid = some { a with balance := v } := by
  induction l with
  | nil => simp [find_one_by_id] at h
  | cons b rest ih =>
      by_cases hb : (some b.id == oid) = true
      · rw [find_one_by_id_cons_pos hb] at h
        have hba : b = a := Option.some.inj h
        subst hba
        rw [update_balance, if_pos hb]
        exact find_one_by_id_cons_pos hb
      · rw [find_one_by_id_cons_neg hb] at h
        rw [update_balance, if_neg hb]
        rw [find_one_by_id_cons_neg hb]
        exact ih h

/-- Updating under one id filter leaves lookups under a different id filter
unchanged. -/
theorem find_update_balance_other {l : List Account} {oid oid' : Option String}
    {v : ℚ} (hne : oid ≠ oid') :
    find_one_by_id (update_balance l oid v) oid' = find_one_by_id l oid' := by
  induction l with
  | nil => simp [find_one_by_id, update_balance]
  | cons b rest ih =>
      by_cases hb : (some b.id == oid) = true
      · have hid : some b.id = oid := by simpa using hb
        have hb' : ¬ ((some b.id == oid') = true) := by
          simp only [beq_iff_eq]
          exact fun he => hne (hid ▸ he)
        rw [update_balance, if_pos hb]
        rw [find_one_by_id_cons_neg (by simpa using hb'),
          find_one_by_id_cons_neg hb']
      · rw [update_balance, if_neg hb]
        by_cases hb' : (some b.id == oid') = true
        · rw [find_one_by_id_cons_pos hb', find_one_by_id_cons_pos hb']
        · rw [find_one_by_id_cons_neg hb', find_one_by_id_cons_neg hb']
          exact ih

/-! Success and failure characterizations of the three money handlers. -/

/-- A deposit whose type tag is right and whose account lookup succeeds
commits: the found balance plus the amount is written and one deposit
record is appended. -/
theorem deposit_ok_of_found {s : BankState} {uid : String}
    {td : TransactionCreate} {txnId : String} {now : ℕ} {a : Account}
    (hty : td.transaction_type = TransactionType.deposit)
    (hfind : find_one_owned s.accounts td.to_account_id uid = some a) :
    deposit_money s uid td txnId now =
      Except.ok
        ({ s with
            accounts := update_balance s.accounts td.to_account_id (a.balance + td.amount)
            transactions := s.transactions ++
              [{ id := txnId, from_account_id := none
                 to_account_id := td.to_account_id, amount := td.amount
                 transaction_type := TransactionType.deposit
                 description := td.description, timestamp := now
                 user_id := uid }] },
         a.balance + td.amount) := by
  unfold deposit_money
  rw [if_neg (by simp [hty]), hfind]

/-- Inversion of a successful deposit. -/
theorem deposit_ok_inv {s : BankState} {uid : String}
    {td : TransactionCreate} {txnId : String} {now : ℕ} {s' : BankState}
    {nb : ℚ} (h : deposit_money s uid td txnId now = Except.ok (s', nb)) :
    td.transaction_type = TransactionType.deposit ∧
    ∃ a, find_one_owned s.accounts td.to_account_id uid = some a ∧
      nb = a.balance + td.amount ∧
      s'.accounts = update_balance s.accounts td.to_account_id (a.balance + td.amount) ∧
      s'.transactions = s.transactions ++
        [{ id := txnId, from_account_id := none
           to_account_id := td.to_account_id, amount := td.amount
           transaction_type := TransactionType.deposit
           description := td.description, timestamp := now
           user_id := uid }] := by
  unfold deposit_money at h
  split at h
  · exact absurd h (by simp)
  next hty =>
    rw [not_not] at hty
    refine ⟨hty, ?_⟩
    cases hfind : find_one_owned s.accounts td.to_account_id uid with
    | none => rw [hfind] at h; exact absurd h (by simp)
    | some a =>
        rw [hfind] at h
        simp only [Except.ok.injEq, Prod.mk.injEq] at h
        exact ⟨a, rfl, h.2.symm, by rw [← h.1], by rw [← h.1]⟩

/-- A withdrawal whose type tag is right, whose account lookup succeeds and
whose balance covers the amount commits: the found balance minus the amount
is written and one withdrawal record is appended. -/
theorem withdraw_ok_of_found {s : BankState} {uid : String}
    {td : TransactionCreate} {txnId : String} {now : ℕ} {a : Account}
    (hty : td.transaction_type = TransactionType.withdrawal)
    (hfind : find_one_owned s.accounts td.to_account_id uid = some a)
    (hbal : ¬ a.balance < td.amount) :
    withdraw_money s uid td txnId now =
      Except.ok
        ({ s with
            accounts := update_balance s.accounts td.to_account_id (a.balance - td.amount)
            transactions := s.transactions ++
              [{ id := txnId, from_account_id := td.to_account_id
                 to_account_id := none, amount := td.amount
                 transaction_type := TransactionType.withdrawal
                 description := td.description, timestamp := now
                 user_id := uid }] },
         a.balance - td.amount) := by
  unfold withdraw_money
  rw [if_neg (by simp [hty]), hfind]
  simp only [if_neg hbal]

/-- Inversion of a successful withdrawal. -/
theorem withdraw_ok_inv {s : BankState} {uid : String}
    {td : TransactionCreate} {txnId : String} {now : ℕ} {s' : BankState}
    {nb : ℚ} (h : withdraw_money s uid td txnId now = Except.ok (s', nb)) :
    td.transaction_type = TransactionType.withdrawal ∧
    ∃ a, find_one_owned s.accounts td.to_account_id uid = some a ∧
      ¬ a.balance < td.amount ∧
      nb = a.balance - td.amount ∧
      s'.accounts = update_balance s.accounts td.to_account_id (a.balance - td.amount) ∧
      s'.transactions = s.transactions ++
        [{ id := txnId, from_account_id := td.to_account_id
           to_account_id := none, amount := td.amount
           transaction_type := TransactionType.withdrawal
           description := td.description, timestamp := now
           user_id := uid }] := by
  unfold withdraw_money at h
  split at h
  · exact absurd h (by simp)
  next hty =>
    rw [not_not] at hty
    refine ⟨hty, ?_⟩
    split at h
    · exact absurd h (by simp)
    next a hfind =>
      split at h
      · exact absurd h (by simp)
      next hbal =>
        simp only [Except.ok.injEq, Prod.mk.injEq] at h
        exact ⟨a, hfind, hbal, h.2.symm, by rw [← h.1], by rw [← h.1]⟩

/-- A transfer whose two lookups succeed and whose source balance covers the
amount commits: the source is written first, the destination second (both
from pre-update reads), and one transfer record is appended. -/
theorem transfer_ok_of_found {s : BankState} {uid : String}
    {tr : TransferRequest} {txnId : String} {now : ℕ} {fa ta : Account}
    (hfrom : find_one_owned s.accounts (some tr.from_account_id) uid = some fa)
    (hto : find_one_by_id s.accounts (some tr.to_account_id) = some ta)
    (hbal : ¬ fa.balance < tr.amount) :
    transfer_money s uid tr txnId now =
      Except.ok
        ({ s with
            accounts :=
              update_balance
                (update_balance s.accounts (some tr.from_account_id)
                  (fa.balance - tr.amount))
                (some tr.to_account_id) (ta.balance + tr.amount)
            transactions := s.transactions ++
              [{ id := txnId, from_account_id := some tr.from_account_id
                 to_account_id := some tr.to_account_id, amount := tr.amount
                 transaction_type := TransactionType.transfer
                 description := tr.description, timestamp := now
                 user_id := uid }] },
         fa.balance - tr.amount) := by
  unfold transfer_money
  rw [hfrom, hto]
  simp only [if_neg hbal]

/-- Inversion of a successful transfer. -/
theorem transfer_ok_inv {s : BankState} {uid : String}
    {tr : TransferRequest} {txnId : String} {now : ℕ} {s' : BankState}
    {nb : ℚ} (h : transfer_money s uid tr txnId now = Except.ok (s', nb)) :
    ∃ fa ta,
      find_one_owned s.accounts (some tr.from_account_id) uid = some fa ∧
      find_one_by_id s.accounts (some tr.to_account_id) = some ta ∧
      ¬ fa.balance < tr.amount ∧
      nb = fa.balance - tr.amount ∧
      s'.accounts =
        update_balance
          (update_balance s.accounts (some tr.from_account_id)
            (fa.balance - tr.amount))
          (some tr.to_account_id) (ta.balance + tr.amount) ∧
      s'.transactions = s.transactions ++
        [{ id := txnId, from_account_id := some tr.from_account_id
           to_account_id := some tr.to_account_id, amount := tr.amount
           transaction_type := TransactionType.transfer
           description := tr.description, timestamp := now
           user_id := uid }] := by
  unfold transfer_money at h
  split at h
  · exact absurd h (by simp)
  next fa hfrom =>
    split at h
    · exact absurd h (by simp)
    next ta hto =>
      split at h
      · exact absurd h (by simp)
      next hbal =>
        simp only [Except.ok.injEq, Prod.mk.injEq] at h
        exact ⟨fa, ta, hfrom, hto, hbal, h.2.symm, by rw [← h.1], by rw [← h.1]⟩

/-! Claim theorems. -/

/-- C1, counterexample: a deposit of the non-positive amount -3 into the
caller's account `a1` does not fail — it commits, changes the balance from
1000 to 997 and creates a Transaction record, contradicting the claim that
every non-positive amount fails with `InvalidAmount` leaving no trace. -/
theorem c1_counterexample :
    tdNeg.amount ≤ 0 ∧
    deposit_money s0 "u1" tdNeg "t1" 1 =
      Except.ok
        ({ users := [U1]
           accounts := [{ A1 with balance := 997 }, A2, A3]
           transactions :=
             [{ id := "t1", from_account_id := none, to_account_id := some "a1"
                amount := -3, transaction_type := TransactionType.deposit
                description := "neg", timestamp := 1, user_id := "u1" }] },
         997) := by
  constructor
  · norm_num [tdNeg]
  · simp [deposit_money, find_one_owned, update_balance, tdNeg, s0, A1, A2, A3, U1]
    norm_num

/-- C1, amended: the handlers perform no positivity check on the amount.
A deposit with a non-positive amount commits whenever the account lookup
succeeds; a withdrawal or transfer with a non-positive amount commits
whenever the lookups succeed and the source balance is non-negative (the
balance check `balance < amount` then passes automatically); in every case
the balance changes by the signed amount and a Transaction record is
created. -/
theorem c1_amended (s : BankState) (uid txnId : String) (now : ℕ) :
    (∀ (td : TransactionCreate) (a : Account),
        td.amount ≤ 0 →
        td.transaction_type = TransactionType.deposit →
        find_one_owned s.accounts td.to_account_id uid = some a →
        ∃ s', deposit_money s uid td txnId now = Except.ok (s', a.balance + td.amount) ∧
          s'.transactions = s.transactions ++
            [{ id := txnId, from_account_id := none
               to_account_id := td.to_account_id, amount := td.amount
               transaction_type := TransactionType.deposit
               description := td.description, timestamp := now
               user_id := uid }]) ∧
    (∀ (td : TransactionCreate) (a : Account),
        td.amount ≤ 0 →
        td.transaction_type = TransactionType.withdrawal →
        find_one_owned s.accounts td.to_account_id uid = some a →
        0 ≤ a.balance →
        ∃ s', withdraw_money s uid td txnId now = Except.ok (s', a.balance - td.amount) ∧
          s'.transactions = s.transactions ++
            [{ id := txnId, from_account_id := td.to_account_id
               to_account_id := none, amount := td.amount
               transaction_type := TransactionType.withdrawal
               description := td.description, timestamp := now
               user_id := uid }]) ∧
    (∀ (tr : TransferRequest) (fa ta : Account),
        tr.amount ≤ 0 →
        find_one_owned s.accounts (some tr.from_account_id) uid = some fa →
        find_one_by_id s.accounts (some tr.to_account_id) = some ta →
        0 ≤ fa.balance →
        ∃ s', transfer_money s uid tr txnId now = Except.ok (s', fa.balance - tr.amount) ∧
          s'.transactions = s.transactions ++
            [{ id := txnId, from_account_id := some tr.from_account_id
               to_account_id := some tr.to_account_id, amount := tr.amount
               transaction_type := TransactionType.transfer
               description := tr.description, timestamp := now
               user_id := uid }]) := by
  refine ⟨?_, ?_, ?_⟩
  · intro td a _ hty hfind
    exact ⟨_, deposit_ok_of_found hty hfind, rfl⟩
  · intro td a hamt hty hfind hpos
    have hbal : ¬ a.balance < td.amount := not_lt.mpr (hamt.trans hpos)
    exact ⟨_, withdraw_ok_of_found hty hfind hbal, rfl⟩
  · intro tr fa ta hamt hfrom hto hpos
    have hbal : ¬ fa.balance < tr.amount := not_lt.mpr (hamt.trans hpos)
    exact ⟨_, transfer_ok_of_found hfrom hto hbal, rfl⟩

/-- C1, witness: the amended theorem applied to the negative deposit
`tdNeg` against the fixture state. -/
theorem c1_amended_witness :
    ∃ s', deposit_money s0 "u1" tdNeg "t1" 1 =
        Except.ok (s', A1.balance + tdNeg.amount) ∧
      s'.transactions = s0.transactions ++
        [{ id := "t1", from_account_id := none
           to_account_id := tdNeg.to_account_id, amount := tdNeg.amount
           transaction_type := TransactionType.deposit
           description := tdNeg.description, timestamp := 1
           user_id := "u1" }] :=
  (c1_amended s0 "u1" "t1" 1).1 tdNeg A1 (by norm_num [tdNeg]) rfl (by decide)

/-- C2, counterexample: starting from the fixture state, in which every
balance is non-negative, the committed deposit of -1017 into `a1` leaves
that balance at -17 < 0, contradicting the claimed invariant. -/
theorem c2_counterexample :
    allBalancesNonneg s0 ∧
    deposit_money s0 "u1"
      { to_account_id := some "a1", amount := -1017
        transaction_type := TransactionType.deposit, description := "drain" }
      "t1" 1 =
      Except.ok
        ({ users := [U1]
           accounts := [{ A1 with balance := -17 }, A2, A3]
           transactions :=
             [{ id := "t1", from_account_id := none, to_account_id := some "a1"
                amount := -1017, transaction_type := TransactionType.deposit
                description := "drain", timestamp := 1, user_id := "u1" }] },
         -17) ∧
    ¬ (0 : ℚ) ≤ -17 := by
  refine ⟨by unfold allBalancesNonneg; decide, ?_, by norm_num⟩
  simp [deposit_money, find_one_owned, update_balance, s0, A1, A2, A3, U1]
  norm_num

/-- C2, amended: starting from a state in which every balance is
non-negative, every committed deposit, withdrawal or transfer whose amount
is non-negative leaves every balance non-negative (for withdrawals no
amount hypothesis is needed: the balance check alone suffices). -/
theorem c2_amended (s : BankState) (uid txnId : String) (now : ℕ)
    (hs : allBalancesNonneg s) :
    (∀ (td : TransactionCreate) (s' : BankState) (nb : ℚ),
        0 ≤ td.amount →
        deposit_money s uid td txnId now = Except.ok (s', nb) →
        allBalancesNonneg s') ∧
    (∀ (td : TransactionCreate) (s' : BankState) (nb : ℚ),
        withdraw_money s uid td txnId now = Except.ok (s', nb) →
        allBalancesNonneg s') ∧
    (∀ (tr : TransferRequest) (s' : BankState) (nb : ℚ),
        0 ≤ tr.amount →
        transfer_money s uid tr txnId now = Except.ok (s', nb) →
        allBalancesNonneg s') := by
  refine ⟨?_, ?_, ?_⟩
  · intro td s' nb hamt h
    obtain ⟨-, a, hfind, -, hacc, -⟩ := deposit_ok_inv h
    obtain ⟨hmem, -, -⟩ := find_one_owned_spec hfind
    intro b hb
    rw [hacc] at hb
    rcases mem_update_balance hb with h1 | ⟨c, hc, h1⟩
    · rw [h1]; exact add_nonneg (hs a hmem) hamt
    · rw [h1]; exact hs c hc
  · intro td s' nb h
    obtain ⟨-, a, hfind, hbal, -, hacc, -⟩ := withdraw_ok_inv h
    intro b hb
    rw [hacc] at hb
    rcases mem_update_balance hb with h1 | ⟨c, hc, h1⟩
    · rw [h1]; exact sub_nonneg.mpr (not_lt.mp hbal)
    · rw [h1]; exact hs c hc
  · intro tr s' nb hamt h
    obtain ⟨fa, ta, hfrom, hto, hbal, -, hacc, -⟩ := transfer_ok_inv h
    obtain ⟨hta, -⟩ := find_one_by_id_spec hto
    intro b hb
    rw [hacc] at hb
    rcases mem_update_balance hb with h1 | ⟨c, hc, h1⟩
    · rw [h1]; exact add_nonneg (hs ta hta) hamt
    · rcases mem_update_balance hc with h2 | ⟨d, hd, h2⟩
      · rw [h1, h2]; exact sub_nonneg.mpr (not_lt.mp hbal)
      · rw [h1, h2]; exact hs d hd

/-- C2, witness: the amended theorem applied to the zero-amount deposit
`tdZero` against the fixture state. -/
theorem c2_amended_witness :
    allBalancesNonneg
      { users := [U1]
        accounts := [{ A1 with balance := A1.balance + tdZero.amount }, A2, A3]
        transactions :=
          [{ id := "t1", from_account_id := none, to_account_id := some "a1"
             amount := 0, transaction_type := TransactionType.deposit
             description := "zero", timestamp := 1, user_id := "u1" }] } :=
  (c2_amended s0 "u1" "t1" 1 (by unfold allBalancesNonneg; decide)).1 tdZero _ (A1.balance + tdZero.amount)
    (by norm_num [tdZero])
    (by simp [deposit_money, find_one_owned, update_balance, tdZero, s0, A1, A2, A3, U1])

/-- C3, evaluation at the failing input: the transfer handler has no
same-account check.  A transfer of 4 from `a1` to `a1` (caller `u1`,
balance 1000) commits: the second `update_one` overwrites the first with
the stale pre-update read, leaving the balance at 1000 + 4 = 1004 (money
created from nothing), a Transaction record is created, and the handler
even reports `new_from_balance` 996, inconsistent with the stored 1004.
The claim (and spec §4.2) requires failure with `InvalidTransfer` and no
state change. -/
theorem c3_self_transfer_evaluation :
    transfer_money s0 "u1"
      { from_account_id := "a1", to_account_id := "a1"
        amount := 4, description := "self" }
      "t1" 1 =
      Except.ok
        ({ users := [U1]
           accounts := [{ A1 with balance := 1004 }, A2, A3]
           transactions :=
             [{ id := "t1", from_account_id := some "a1", to_account_id := some "a1"
                amount := 4, transaction_type := TransactionType.transfer
                description := "self", timestamp := 1, user_id := "u1" }] },
         996) := by
  simp [transfer_money, find_one_owned, find_one_by_id, update_balance,
    s0, A1, A2, A3, U1]
  norm_num

/-- C4 (confirmed): a withdrawal whose found account holds strictly less
than the requested amount fails with the insufficient-balance error; since
the handler raises before any write, no balance changes and no Transaction
record is created (an `Except.error` result carries no successor state). -/
theorem c4_insufficient_funds (s : BankState) (uid : String)
    (td : TransactionCreate) (txnId : String) (now : ℕ) (a : Account)
    (hty : td.transaction_type = TransactionType.withdrawal)
    (hfind : find_one_owned s.accounts td.to_account_id uid = some a)
    (hbal : a.balance < td.amount) :
    withdraw_money s uid td txnId now = Except.error ApiError.insufficientBalance := by
  unfold withdraw_money
  rw [if_neg (by simp [hty]), hfind]
  simp only [if_pos hbal]

/-- C4, witness: the spec scenario — withdrawing 50000 from the account
with balance 1000 fails with the insufficient-balance error. -/
theorem c4_insufficient_funds_witness :
    withdraw_money s0 "u1" tdBig "t1" 1 =
      Except.error ApiError.insufficientBalance :=
  c4_insufficient_funds s0 "u1" tdBig "t1" 1 A1 rfl (by decide) (by decide)

/-- C5, counterexample: account `a3` exists, belongs to the caller `u1`,
but is inactive (`is_active = false`); the claim requires the deposit to
fail with `AccountNotFound`, yet it commits, raising the balance from 2 to
7 and creating a Transaction record — the handlers never consult
`is_active`. -/
theorem c5_counterexample :
    A3.is_active = false ∧
    deposit_money s0 "u1" tdIn "t1" 1 =
      Except.ok
        ({ users := [U1]
           accounts := [A1, A2, { A3 with balance := 7 }]
           transactions :=
             [{ id := "t1", from_account_id := none, to_account_id := some "a3"
                amount := 5, transaction_type := TransactionType.deposit
                description := "inactive", timestamp := 1, user_id := "u1" }] },
         7) := by
  refine ⟨rfl, ?_⟩
  simp [deposit_money, find_one_owned, update_balance, tdIn, s0, A1, A2, A3, U1]
  norm_num

/-- C5, amended: for deposits and withdrawals the target account must exist
and belong to the calling user, else the handler fails with
`AccountNotFound`; the account's `active` flag is not checked — when the
lookup succeeds the operation proceeds regardless of `is_active` (deposits
commit unconditionally, withdrawals commit whenever the balance covers the
amount). -/
theorem c5_amended (s : BankState) (uid txnId : String) (now : ℕ) :
    (∀ td : TransactionCreate,
        td.transaction_type = TransactionType.deposit →
        find_one_owned s.accounts td.to_account_id uid = none →
        deposit_money s uid td txnId now = Except.error ApiError.accountNotFound) ∧
    (∀ td : TransactionCreate,
        td.transaction_type = TransactionType.withdrawal →
        find_one_owned s.accounts td.to_account_id uid = none →
        withdraw_money s uid td txnId now = Except.error ApiError.accountNotFound) ∧
    (∀ (td : TransactionCreate) (a : Account),
        td.transaction_type = TransactionType.deposit →
        find_one_owned s.accounts td.to_account_id uid = some a →
        ∃ s', deposit_money s uid td txnId now = Except.ok (s', a.balance + td.amount)) ∧
    (∀ (td : TransactionCreate) (a : Account),
        td.transaction_type = TransactionType.withdrawal →
        find_one_owned s.accounts td.to_account_id uid = some a →
        ¬ a.balance < td.amount →
        ∃ s', withdraw_money s uid td txnId now = Except.ok (s', a.balance - td.amount)) := by
  refine ⟨?_, ?_, ?_, ?_⟩
  · intro td hty hfind
    unfold deposit_money
    rw [if_neg (by simp [hty]), hfind]
  · intro td hty hfind
    unfold withdraw_money
    rw [if_neg (by simp [hty]), hfind]
  · intro td a hty hfind
    exact ⟨_, deposit_ok_of_found hty hfind⟩
  · intro td a hty hfind hbal
    exact ⟨_, withdraw_ok_of_found hty hfind hbal⟩

/-- C5, witness: the amended theorem applied to the inactive account `a3`
owned by the caller — the deposit commits, showing the activity flag plays
no role in the lookup. -/
theorem c5_amended_witness :
    ∃ s', deposit_money s0 "u1" tdIn "t1" 1 =
      Except.ok (s', A3.balance + tdIn.amount) :=
  (c5_amended s0 "u1" "t1" 1).2.2.1 tdIn A3 rfl (by decide)

/-- C6, counterexample: from the fixture state whose ledger holds the
Transaction `T0` of user `u1`, the operation `delete_user "u1"` commits and
the resulting ledger is empty — `T0` has been deleted, contradicting the
claim that a created Transaction survives every operation. -/
theorem c6_counterexample :
    sT.transactions = [T0] ∧
    step sT (Op.deleteUserOp "u1") =
      Except.ok { users := [], accounts := [A2], transactions := [] } := by
  refine ⟨rfl, ?_⟩
  simp [step, delete_user, erase_first_user, sT, U1, A1, A2, A3, T0]

/-- C6, amended: no operation ever mutates an existing Transaction record,
and every operation except `delete_user` extends the ledger append-only
(the successor ledger is the old ledger plus the records appended by the
operation); `delete_user uid`, however, deletes every Transaction whose
`user_id` is the deleted user's, keeping exactly the others unchanged. -/
theorem c6_amended (s : BankState) (op : Op) (s' : BankState)
    (h : step s op = Except.ok s') :
    ((∀ uid, op ≠ Op.deleteUserOp uid) →
        ∃ ts, s'.transactions = s.transactions ++ ts) ∧
    (∀ uid, op = Op.deleteUserOp uid →
        s'.transactions = s.transactions.filter (fun t => t.user_id != uid)) := by
  cases op with
  | registerOp e f p r nu ai an now =>
      refine ⟨fun _ => ⟨[], ?_⟩, fun uid he => nomatch he⟩
      simp only [step] at h
      unfold register_user at h
      split at h
      · exact absurd h (by simp)
      · split at h <;>
        · simp only [Except.ok.injEq] at h
          rw [← h]
          simp [create_account]
  | createAccountOp c t ai an now =>
      refine ⟨fun _ => ⟨[], ?_⟩, fun uid he => nomatch he⟩
      simp only [step] at h
      simp only [Except.ok.injEq] at h
      rw [← h]
      simp [create_account]
  | depositOp c td ti now =>
      refine ⟨fun _ => ?_, fun uid he => nomatch he⟩
      simp only [step] at h
      cases hr : deposit_money s c td ti now with
      | error e => rw [hr] at h; exact absurd h (by simp [Except.map])
      | ok q =>
          rw [hr] at h
          simp only [Except.map, Except.ok.injEq] at h
          obtain ⟨-, a, -, -, -, htx⟩ := deposit_ok_inv hr
          exact ⟨_, h ▸ htx⟩
  | withdrawOp c td ti now =>
      refine ⟨fun _ => ?_, fun uid he => nomatch he⟩
      simp only [step] at h
      cases hr : withdraw_money s c td ti now with
      | error e => rw [hr] at h; exact absurd h (by simp [Except.map])
      | ok q =>
          rw [hr] at h
          simp only [Except.map, Except.ok.injEq] at h
          obtain ⟨-, a, -, -, -, -, htx⟩ := withdraw_ok_inv hr
          exact ⟨_, h ▸ htx⟩
  | transferOp c tr ti now =>
      refine ⟨fun _ => ?_, fun uid he => nomatch he⟩
      simp only [step] at h
      cases hr : transfer_money s c tr ti now with
      | error e => rw [hr] at h; exact absurd h (by simp [Except.map])
      | ok q =>
          rw [hr] at h
          simp only [Except.map, Except.ok.injEq] at h
          obtain ⟨fa, ta, -, -, -, -, -, htx⟩ := transfer_ok_inv hr
          exact ⟨_, h ▸ htx⟩
  | updateUserOp uid upd =>
      refine ⟨fun _ => ⟨[], ?_⟩, fun uid' he => nomatch he⟩
      simp only [step] at h
      unfold update_user at h
      split at h
      · exact absurd h (by simp)
      · simp only [Except.ok.injEq] at h
        rw [← h]
        simp
  | deleteUserOp uid =>
      constructor
      · intro hne
        exact absurd rfl (hne uid)
      · intro uid' he
        injection he with he'
        subst he'
        simp only [step] at h
        unfold delete_user at h
        split at h
        · exact absurd h (by simp)
        · split at h
          · exact absurd h (by simp)
          · simp only [Except.ok.injEq] at h
            rw [← h]

/-- C6, witness: the amended theorem applied to the zero-amount deposit
step from the fixture state `sT`; its ledger grows append-only. -/
theorem c6_amended_witness :
    ∃ ts, sTdep.transactions = sT.transactions ++ ts :=
  (c6_amended sT (Op.depositOp "u1" tdZero "t1" 1) sTdep
      (by simp [step, Except.map, deposit_money, find_one_owned, update_balance,
            tdZero, sT, sTdep, T0, T1, A1, A2, A3, U1])).1
    (fun uid he => nomatch he)

/-- C7, counterexample: a successful self-transfer of 5 on account `a1`
(balance 1000) leaves the source balance at 1005, not 1000 - 5: the claim
that every successful transfer decreases the source balance by the amount
fails when `from_account = to_account`. -/
theorem c7_counterexample :
    transfer_money s0 "u1"
      { from_account_id := "a1", to_account_id := "a1"
        amount := 5, description := "self5" }
      "t9" 9 =
      Except.ok
        ({ users := [U1]
           accounts := [{ A1 with balance := 1005 }, A2, A3]
           transactions :=
             [{ id := "t9", from_account_id := some "a1", to_account_id := some "a1"
                amount := 5, transaction_type := TransactionType.transfer
                description := "self5", timestamp := 9, user_id := "u1" }] },
         995) ∧
    (1005 : ℚ) ≠ A1.balance - 5 := by
  constructor
  · simp [transfer_money, find_one_owned, find_one_by_id, update_balance,
      s0, A1, A2, A3, U1]
    norm_num
  · norm_num [A1]

/-- C7, amended: under duplicate-free account ids, a successful deposit
sets the account's balance to old + amount; a successful withdrawal sets it
to old - amount and appends exactly one withdrawal Transaction with that
amount; and a successful transfer between two distinct accounts decreases
the source balance by the amount and increases the destination balance by
the amount (the distinctness hypothesis is forced by the self-transfer
counterexample). -/
theorem c7_amended (s : BankState) (uid txnId : String) (now : ℕ)
    (hn : (s.accounts.map Account.id).Nodup) :
    (∀ (td : TransactionCreate) (a : Account),
        td.transaction_type = TransactionType.deposit →
        find_one_owned s.accounts td.to_account_id uid = some a →
        ∃ s', deposit_money s uid td txnId now = Except.ok (s', a.balance + td.amount) ∧
          getBalance? s' a.id = some (a.balance + td.amount)) ∧
    (∀ (td : TransactionCreate) (a : Account),
        td.transaction_type = TransactionType.withdrawal →
        find_one_owned s.accounts td.to_account_id uid = some a →
        ¬ a.balance < td.amount →
        ∃ s', withdraw_money s uid td txnId now = Except.ok (s', a.balance - td.amount) ∧
          getBalance? s' a.id = some (a.balance - td.amount) ∧
          s'.transactions = s.transactions ++
            [{ id := txnId, from_account_id := td.to_account_id
               to_account_id := none, amount := td.amount
               transaction_type := TransactionType.withdrawal
               description := td.description, timestamp := now
               user_id := uid }]) ∧
    (∀ (tr : TransferRequest) (fa ta : Account),
        tr.from_account_id ≠ tr.to_account_id →
        find_one_owned s.accounts (some tr.from_account_id) uid = some fa →
        find_one_by_id s.accounts (some tr.to_account_id) = some ta →
        ¬ fa.balance < tr.amount →
        ∃ s', transfer_money s uid tr txnId now = Except.ok (s', fa.balance - tr.amount) ∧
          getBalance? s' tr.from_account_id = some (fa.balance - tr.amount) ∧
          getBalance? s' tr.to_account_id = some (ta.balance + tr.amount)) := by
  refine ⟨?_, ?_, ?_⟩
  · intro td a hty hfind
    refine ⟨_, deposit_ok_of_found hty hfind, ?_⟩
    obtain ⟨-, hid, -⟩ := find_one_owned_spec hfind
    have hbid : find_one_by_id s.accounts td.to_account_id = some a :=
      find_one_by_id_of_owned hn hfind
    simp only [getBalance?]
    rw [hid, find_update_balance_self hbid]
    rfl
  · intro td a hty hfind hbal
    refine ⟨_, withdraw_ok_of_found hty hfind hbal, ?_, rfl⟩
    obtain ⟨-, hid, -⟩ := find_one_owned_spec hfind
    have hbid : find_one_by_id s.accounts td.to_account_id = some a :=
      find_one_by_id_of_owned hn hfind
    simp only [getBalance?]
    rw [hid, find_update_balance_self hbid]
    rfl
  · intro tr fa ta hne hfrom hto hbal
    refine ⟨_, transfer_ok_of_found hfrom hto hbal, ?_, ?_⟩
    · have hfrom' : find_one_by_id s.accounts (some tr.from_account_id) = some fa :=
        find_one_by_id_of_owned hn hfrom
      have hne1 : (some tr.to_account_id : Option String) ≠ some tr.from_account_id := by
        simp [Ne.symm hne]
      simp only [getBalance?]
      rw [find_update_balance_other hne1, find_update_balance_self hfrom']
      rfl
    · have hne2 : (some tr.from_account_id : Option String) ≠ some tr.to_account_id := by
        simp [hne]
      simp only [getBalance?]
      rw [find_update_balance_self (by rw [find_update_balance_other hne2]; exact hto)]
      rfl

/-- C7, witness: the spec scenario — withdrawing 300 from the account with
balance 1000 yields balance 700 and one withdrawal Transaction of 300. -/
theorem c7_amended_witness :
    ∃ s', withdraw_money s0 "u1" tdW "t2" 2 =
        Except.ok (s', A1.balance - tdW.amount) ∧
      getBalance? s' A1.id = some (A1.balance - tdW.amount) ∧
      s'.transactions = s0.transactions ++
        [{ id := "t2", from_account_id := tdW.to_account_id
           to_account_id := none, amount := tdW.amount
           transaction_type := TransactionType.withdrawal
           description := tdW.description, timestamp := 2
           user_id := "u1" }] :=
  (c7_amended s0 "u1" "t2" 2 (by decide)).2.1 tdW A1 rfl (by decide) (by decide)

/-- C8 (confirmed): a transfer succeeds only when the source account is
owned by the caller, while the destination account only has to exist (its
owner is unconstrained — the second conjunct places no ownership hypothesis
on `ta`); a successful transfer appends exactly one Transaction record
carrying both account ids (never two records), and, for distinct accounts
under duplicate-free ids, updates both balances by the transferred amount. -/
theorem c8_transfer_contract (s : BankState) (uid txnId : String) (now : ℕ) :
    (∀ (tr : TransferRequest) (s' : BankState) (nb : ℚ),
        transfer_money s uid tr txnId now = Except.ok (s', nb) →
        (∃ fa ∈ s.accounts, fa.id = tr.from_account_id ∧ fa.user_id = uid) ∧
        s'.transactions = s.transactions ++
          [{ id := txnId, from_account_id := some tr.from_account_id
             to_account_id := some tr.to_account_id, amount := tr.amount
             transaction_type := TransactionType.transfer
             description := tr.description, timestamp := now
             user_id := uid }]) ∧
    (∀ (tr : TransferRequest) (fa ta : Account),
        find_one_owned s.accounts (some tr.from_account_id) uid = some fa →
        find_one_by_id s.accounts (some tr.to_account_id) = some ta →
        ¬ fa.balance < tr.amount →
        ∃ s', transfer_money s uid tr txnId now = Except.ok (s', fa.balance - tr.amount)) ∧
    (∀ (tr : TransferRequest) (fa ta : Account) (s' : BankState) (nb : ℚ),
        (s.accounts.map Account.id).Nodup →
        tr.from_account_id ≠ tr.to_account_id →
        find_one_owned s.accounts (some tr.from_account_id) uid = some fa →
        find_one_by_id s.accounts (some tr.to_account_id) = some ta →
        transfer_money s uid tr txnId now = Except.ok (s', nb) →
        getBalance? s' tr.from_account_id = some (fa.balance - tr.amount) ∧
        getBalance? s' tr.to_account_id = some (ta.balance + tr.amount)) := by
  refine ⟨?_, ?_, ?_⟩
  · intro tr s' nb h
    obtain ⟨fa, ta, hfrom, hto, -, -, -, htx⟩ := transfer_ok_inv h
    obtain ⟨hmem, hid, huser⟩ := find_one_owned_spec hfrom
    exact ⟨⟨fa, hmem, Option.some.inj hid, huser⟩, htx⟩
  · intro tr fa ta hfrom hto hbal
    exact ⟨_, transfer_ok_of_found hfrom hto hbal⟩
  · intro tr fa ta s' nb hn hne hfrom hto h
    obtain ⟨fa', ta', hfrom', hto', hbal', -, hacc, -⟩ := transfer_ok_inv h
    have h1 : fa = fa' := Option.some.inj (hfrom.symm.trans hfrom')
    have h2 : ta = ta' := Option.some.inj (hto.symm.trans hto')
    cases h1
    cases h2
    have hfromId : find_one_by_id s.accounts (some tr.from_account_id) = some fa :=
      find_one_by_id_of_owned hn hfrom
    have hne1 : (some tr.to_account_id : Option String) ≠ some tr.from_account_id := by
      simp [Ne.symm hne]
    have hne2 : (some tr.from_account_id : Option String) ≠ some tr.to_account_id := by
      simp [hne]
    constructor
    · simp only [getBalance?]
      rw [hacc, find_update_balance_other hne1, find_update_balance_self hfromId]
      rfl
    · simp only [getBalance?]
      rw [hacc,
        find_update_balance_self (by rw [find_update_balance_other hne2]; exact hto)]
      rfl

/-- C8, witness: the second conjunct applied to a transfer of 250 from
`u1`'s account `a1` to `u2`'s account `a2` — the destination is not owned
by the caller, yet the transfer commits. -/
theorem c8_transfer_contract_witness :
    ∃ s', transfer_money s0 "u1" trX "t3" 3 =
      Except.ok (s', A1.balance - trX.amount) :=
  (c8_transfer_contract s0 "u1" "t3" 3).2.1 trX A1 A2 (by decide) (by decide)
    (by decide)

/-- C10 (confirmed): the account a withdrawal debits is the one named by
the request's `to_account_id` field, and the Transaction record created has
`from_account_id` equal to that request field and `to_account_id` unset. -/
theorem c10_withdrawal_routing (s : BankState) (uid txnId : String) (now : ℕ)
    (td : TransactionCreate) (a : Account) (aid : String)
    (hn : (s.accounts.map Account.id).Nodup)
    (hty : td.transaction_type = TransactionType.withdrawal)
    (haid : td.to_account_id = some aid)
    (hfind : find_one_owned s.accounts td.to_account_id uid = some a)
    (hbal : ¬ a.balance < td.amount) :
    a.id = aid ∧
    ∃ s', withdraw_money s uid td txnId now = Except.ok (s', a.balance - td.amount) ∧
      getBalance? s' aid = some (a.balance - td.amount) ∧
      s'.transactions = s.transactions ++
        [{ id := txnId, from_account_id := some aid, to_account_id := none
           amount := td.amount, transaction_type := TransactionType.withdrawal
           description := td.description, timestamp := now
           user_id := uid }] := by
  obtain ⟨-, hid, -⟩ := find_one_owned_spec hfind
  have hida : a.id = aid := Option.some.inj (haid ▸ hid)
  have hbid : find_one_by_id s.accounts td.to_account_id = some a :=
    find_one_by_id_of_owned hn hfind
  refine ⟨hida, _, withdraw_ok_of_found hty hfind hbal, ?_, ?_⟩
  · simp only [getBalance?]
    rw [← haid, find_update_balance_self hbid]
    rfl
  · simp [haid]

/-- C10, witness: withdrawing 250 with request field `to_account_id =
"a1"` debits `a1` and records `from_account_id = some "a1"`,
`to_account_id = none`. -/
theorem c10_withdrawal_routing_witness :
    A1.id = "a1" ∧
    ∃ s', withdraw_money s0 "u1" tdW2 "t4" 4 =
        Except.ok (s', A1.balance - tdW2.amount) ∧
      getBalance? s' "a1" = some (A1.balance - tdW2.amount) ∧
      s'.transactions = s0.transactions ++
        [{ id := "t4", from_account_id := some "a1", to_account_id := none
           amount := tdW2.amount, transaction_type := TransactionType.withdrawal
           description := tdW2.description, timestamp := 4
           user_id := "u1" }] :=
  c10_withdrawal_routing s0 "u1" "t4" 4 tdW2 A1 "a1" (by decide) rfl rfl
    (by decide) (by decide)

end SeuBank
